import Mathlib

/-!
Verification of the Zero Trust Architecture prototype
(central analysis engine and response system).

Each definition below is a shallow embedding of a Python function from the
repository, translated line by line:

* `evaluate_response_actions`  from `src/response/response_system.py`
  (`AutomatedResponseService.evaluate_response_actions`)
* `_calculate_risk_score`      from `src/central_analysis/analysis_engine.py`
  (`CentralAnalysisEngine._calculate_risk_score`)

Python floats are modelled as rationals; Python dicts whose keys are fixed in
the source are modelled as structures with `Option` fields for keys that may
be absent.
-/

/-- ThreatLevel enum from `src/models.py`. -/
inductive ThreatLevel
  | low
  | medium
  | high
  | critical
deriving DecidableEq, Repr

/-- ResponseAction enum from `src/models.py`. -/
inductive ResponseAction
  | isolate_device
  | revoke_access
  | quarantine
  | alert_admin
deriving DecidableEq, Repr

/-- ResponseStatus enum from `src/response/response_system.py`. -/
inductive ResponseStatus
  | pending
  | executing
  | completed
  | failed
  | cancelled
deriving DecidableEq, Repr

/-- Threat-intelligence data attached to a match (the dict produced by
`check_ioc` or by the inline malicious-process branch of
`enrich_security_event`); only the fields the analysed code reads are kept. -/
structure IOCData where
  threat_type : String
  confidence : ℚ
  description : String
deriving DecidableEq, Repr

/-- One entry of the `threat_intel` list that `enrich_security_event` builds:
either an `ip_reputation` entry or a `malicious_process` entry. -/
inductive ThreatIntelEntry
  | ip_reputation (value : String) (threat_data : IOCData)
  | malicious_process (value : String) (threat_data : IOCData)
deriving DecidableEq, Repr

/-- The `raw_data` JSON payload of a security event, modelled as a record:
the keys the engine reads (`remote_address`, `name`, `threat_intel`) plus an
opaque bag `other` for all remaining keys. -/
structure RawData where
  remote_address : Option String
  name : Option String
  threat_intel : Option (List ThreatIntelEntry)
  other : List (String × String)
deriving DecidableEq, Repr

/-- Python truthiness of the `raw_data` dict: `None` is handled separately
(`Option`), and an empty dict is falsy. -/
def RawData.isFalsy (rd : RawData) : Bool :=
  rd.remote_address.isNone && rd.name.isNone && rd.threat_intel.isNone && rd.other.isEmpty

/-- SecurityEvent ORM model from `src/models.py`, restricted to the columns
that the analysed functions read. -/
structure SecurityEvent where
  event_id : String
  event_type : String
  device_id : Option ℕ
  user_id : Option ℕ
  threat_level : ThreatLevel
  confidence_score : ℚ
  description : String
  raw_data : Option RawData
  is_resolved : Bool
deriving DecidableEq, Repr

/-- `AutomatedResponseService.evaluate_response_actions`
(`response_system.py`, lines 339-379), translated statement by statement.
`risk_score`, `threat_intel_matches` and `ml_anomaly` are the values taken
from `analysis_results` with the defaults the source applies via `.get`.
The `except` fallback of the source returns `[ALERT_ADMIN]`; the pure
embedding cannot raise, so that branch is the constant
`evaluate_response_actions_fallback` below. -/
def evaluate_response_actions (risk_score : ℚ) (threat_intel_matches : List IOCData)
    (ml_anomaly : Bool) (event : SecurityEvent) : List ResponseAction :=
  let recommended : List ResponseAction := []
  let recommended :=
    if risk_score > 9/10 then
      recommended ++ [ResponseAction.isolate_device, ResponseAction.alert_admin]
    else if risk_score > 7/10 then
      recommended ++ [ResponseAction.quarantine, ResponseAction.alert_admin]
    else recommended
  let recommended :=
    if threat_intel_matches.isEmpty then recommended
    else
      let recommended :=
        if ResponseAction.quarantine ∈ recommended then recommended
        else recommended ++ [ResponseAction.quarantine]
      if event.user_id.isSome then recommended ++ [ResponseAction.revoke_access]
      else recommended
  let recommended :=
    if ml_anomaly then recommended ++ [ResponseAction.alert_admin] else recommended
  if event.threat_level = ThreatLevel.high ∨ event.threat_level = ThreatLevel.critical then
    if ResponseAction.alert_admin ∈ recommended then recommended
    else recommended ++ [ResponseAction.alert_admin]
  else recommended

/-- The `except` branch of `evaluate_response_actions`: on any internal error
the source returns exactly `[ALERT_ADMIN]`. -/
def evaluate_response_actions_fallback : List ResponseAction :=
  [ResponseAction.alert_admin]

/-- One element of the `security_events` list inside a telemetry payload;
the risk scorer reads `event.get("severity", "low")` and the feature
extractor reads `event.get("type")`. -/
structure TelemetrySecEvent where
  etype : Option String
  severity : Option String
deriving DecidableEq, Repr

/-- Telemetry payload, restricted to the keys read by
`_calculate_risk_score` and `extract_features`, with the defaults the source
applies via `.get`.  `compliance_status` keeps only the dict values (the
source only reads `compliance_status.values()`).  `parse_error` models a
payload on which feature extraction raises (for example a non-list
`network_connections`), which triggers the `except` branch of
`extract_features`. -/
structure TelemetryData where
  cpu_usage : ℚ
  memory_usage : ℚ
  disk_usage : ℚ
  network_connections : List String
  running_processes : List String
  security_events : List TelemetrySecEvent
  compliance_status : List ℚ
  parse_error : Bool
deriving DecidableEq, Repr

/-- The `severity_weights` dict lookup
`severity_weights.get(event.get("severity", "low"), 0.1)` from
`_calculate_risk_score`. -/
def severity_weight (s : String) : ℚ :=
  if s = "low" then 1/10
  else if s = "medium" then 3/10
  else if s = "high" then 6/10
  else if s = "critical" then 1
  else 1/10

/-- `CentralAnalysisEngine._calculate_risk_score`
(`analysis_engine.py`, lines 592-622), translated statement by statement. -/
def _calculate_risk_score (telemetry_data : TelemetryData) (is_anomaly : Bool)
    (ml_confidence : ℚ) (threat_matches : List IOCData) : ℚ :=
  let risk_score : ℚ := 0
  let risk_score :=
    if is_anomaly then risk_score + 3/10 * (1 - ml_confidence) else risk_score
  let security_events := telemetry_data.security_events
  let risk_score :=
    if security_events.isEmpty then risk_score
    else
      let event_risk :=
        (security_events.map (fun e => severity_weight (e.severity.getD "low"))).sum
          / security_events.length
      risk_score + 4/10 * min event_risk 1
  let risk_score :=
    if threat_matches.isEmpty then risk_score
    else
      let threat_risk := (threat_matches.map IOCData.confidence).sum / threat_matches.length
      risk_score + 2/10 * threat_risk
  let risk_score :=
    if telemetry_data.compliance_status.isEmpty then risk_score
    else
      let compliance_score :=
        telemetry_data.compliance_status.sum / telemetry_data.compliance_status.length
      risk_score + 1/10 * (1 - compliance_score)
  min risk_score 1

/-- ASCII lowercase of one character: the Python `str.lower()` applied to
the ASCII process names the source compares. -/
def char_lower (c : Char) : Char :=
  if 'A' ≤ c ∧ c ≤ 'Z' then Char.ofNat (c.toNat + 32) else c

/-- ASCII lowercase of a character list. -/
def chars_lower (cs : List Char) : List Char := cs.map char_lower

/-- Prefix test on character lists (used to model the Python `in` substring
operator on strings). -/
def charsPrefix : List Char → List Char → Bool
  | [], _ => true
  | _ :: _, [] => false
  | a :: as, b :: bs => a = b && charsPrefix as bs

/-- Substring test on character lists: the Python expression
`bad in process_name.lower()`. -/
def charsContain (needle : List Char) : List Char → Bool
  | [] => charsPrefix needle []
  | b :: bs => charsPrefix needle (b :: bs) || charsContain needle bs

/-- The `known_bad_processes` list from `enrich_security_event`. -/
def known_bad_processes : List String := ["mimikatz", "psexec", "nc.exe"]

/-- The IP branch of `enrich_security_event`: the `threat_intel` entries
contributed by `raw_data["remote_address"]`.  `check_ioc` is the threat
intelligence lookup (cache plus database), passed in as a function since the
store is an external collaborator. -/
def ip_entries (check_ioc : String → String → Option IOCData) (rd : RawData) :
    List ThreatIntelEntry :=
  match rd.remote_address with
  | none => []
  | some ip =>
    if ip ≠ "" then
      match check_ioc "ip" ip with
      | some ioc_data => [ThreatIntelEntry.ip_reputation ip ioc_data]
      | none => []
    else []

/-- The process branch of `enrich_security_event`: the `threat_intel`
entries contributed by `raw_data["name"]`. -/
def process_entries (rd : RawData) : List ThreatIntelEntry :=
  match rd.name with
  | none => []
  | some process_name =>
    if known_bad_processes.any
        (fun bad => charsContain bad.toList (chars_lower process_name.toList)) then
      [ThreatIntelEntry.malicious_process process_name
        { threat_type := "malware_tool", confidence := 8/10,
          description := "Known malicious process: " ++ process_name }]
    else []

/-- `ThreatIntelligenceService.enrich_security_event`
(`analysis_engine.py`, lines 321-379), translated statement by statement.
Returns the Boolean result of the source together with the (possibly
updated) event.  `raw_data.update(enrichment_data)` replaces the
`threat_intel` key and keeps every other key. -/
def enrich_security_event (check_ioc : String → String → Option IOCData)
    (event : SecurityEvent) : Bool × SecurityEvent :=
  match event.raw_data with
  | none => (false, event)
  | some rd =>
    if rd.isFalsy then (false, event)
    else
      let entries := ip_entries check_ioc rd ++ process_entries rd
      if entries.isEmpty then (false, event)
      else
        let rd' := { rd with threat_intel := some entries }
        (true, { event with
                  raw_data := some rd',
                  confidence_score := min (event.confidence_score + 2/10) 1 })

/-- One entry of an incident timeline
(`IncidentResponseService`, `response_system.py`). -/
structure TimelineEntry where
  timestamp : ℕ
  action : String
  description : String
  user : String
deriving DecidableEq, Repr

/-- An incident dict as built by `IncidentResponseService.create_incident`,
restricted to the fields read or written by `update_incident`,
`escalate_incident` and `close_incident`.  Timestamps are abstract ticks. -/
structure Incident where
  incident_id : String
  status : String
  resolution : Option String
  closed_at : Option ℕ
  updated_at : ℕ
  escalation_level : ℕ
  assigned_to : String
  priority : ℕ
  timeline : List TimelineEntry
deriving DecidableEq, Repr

/-- The `updates` dict passed to `IncidentResponseService.update_incident`:
every key that `escalate_incident` or `close_incident` ever puts in it,
`none` meaning the key is absent. -/
structure IncidentUpdates where
  status : Option String
  resolution : Option String
  closed_at : Option ℕ
  escalation_level : Option ℕ
  assigned_to : Option String
  priority : Option ℕ
  timeline_entry : Option String
  action : Option String
  user : Option String
deriving DecidableEq, Repr

/-- `IncidentResponseService.update_incident`
(`response_system.py`, lines 114-148) on an incident that exists:
`incident.update(updates)` overwrites the present keys, `updated_at` is
refreshed, and a timeline entry is appended exactly when the updates contain
a `timeline_entry` key.  The source returns `True` on this path (it returns
`False` only when the incident is not found). -/
def update_incident (now : ℕ) (incident : Incident) (updates : IncidentUpdates) : Incident :=
  let incident :=
    { incident with
      status := updates.status.getD incident.status,
      resolution := match updates.resolution with
        | some r => some r
        | none => incident.resolution,
      closed_at := match updates.closed_at with
        | some c => some c
        | none => incident.closed_at,
      escalation_level := updates.escalation_level.getD incident.escalation_level,
      assigned_to := updates.assigned_to.getD incident.assigned_to,
      priority := updates.priority.getD incident.priority,
      updated_at := now }
  match updates.timeline_entry with
  | none => incident
  | some entry =>
    { incident with
      timeline := incident.timeline ++
        [{ timestamp := now,
           action := updates.action.getD "update",
           description := entry,
           user := updates.user.getD "system" }] }

/-- `IncidentResponseService.escalate_incident`
(`response_system.py`, lines 193-224) on an incident that exists.  The
Boolean is the value the source returns on this path. -/
def escalate_incident (now : ℕ) (incident : Incident) (reason : String) : Bool × Incident :=
  let current_level := incident.escalation_level
  let new_level := current_level + 1
  let new_assignee :=
    if new_level = 1 then "security_admin"
    else if new_level = 2 then "ciso"
    else if new_level = 3 then "emergency_team"
    else "emergency_team"
  let updates : IncidentUpdates :=
    { status := none, resolution := none, closed_at := none,
      escalation_level := some new_level,
      assigned_to := some new_assignee,
      priority := some (min (incident.priority + 1) 5),
      timeline_entry := some ("Incident escalated to level " ++ toString new_level
        ++ ": " ++ reason),
      action := some "escalated",
      user := none }
  (true, update_incident now incident updates)

/-- `IncidentResponseService.close_incident`
(`response_system.py`, lines 226-242) on an incident that exists.  The
Boolean is the value the source returns on this path. -/
def close_incident (now : ℕ) (incident : Incident) (resolution user : String) :
    Bool × Incident :=
  let updates : IncidentUpdates :=
    { status := some "closed",
      resolution := some resolution,
      closed_at := some now,
      escalation_level := none, assigned_to := none, priority := none,
      timeline_entry := some ("Incident closed: " ++ resolution),
      action := some "closed",
      user := some user }
  (true, update_incident now incident updates)

/-- Folding a sequence of `escalate_incident` calls over one incident; each
list element carries the tick and the reason for one call. -/
def escalate_sequence (incident : Incident) (calls : List (ℕ × String)) : Incident :=
  calls.foldl (fun inc c => (escalate_incident c.1 inc c.2).2) incident

/-- User ORM row (`src/models.py`), restricted to the columns
`_revoke_user_access` reads or writes. -/
structure UserRec where
  id : ℕ
  username : String
  is_active : Bool
deriving DecidableEq, Repr

/-- UserSession ORM row (`src/models.py`), restricted to the columns
`_revoke_user_access` reads or writes. -/
structure SessionRec where
  session_id : String
  user_id : ℕ
  is_active : Bool
deriving DecidableEq, Repr

/-- The slice of database state that `_revoke_user_access` touches. -/
structure RevokeDb where
  users : List UserRec
  sessions : List SessionRec
deriving DecidableEq, Repr

/-- The distinct exit paths of
`AutomatedResponseService._revoke_user_access`: the source logs a different
message and returns `False` on each failure path
("No user associated with event for access revocation",
"User not found for access revocation") and returns `True` on success. -/
inductive RevokeOutcome
  | no_user_associated
  | user_not_found
  | revoked
deriving DecidableEq, Repr

/-- The Boolean the source actually returns for each exit path. -/
def RevokeOutcome.success : RevokeOutcome → Bool
  | RevokeOutcome.revoked => true
  | _ => false

/-- `AutomatedResponseService._revoke_user_access`
(`response_system.py`, lines 552-606), translated statement by statement:
no associated user returns failure; otherwise the user row is deactivated
and every active session of that user is deactivated.  Users are keyed by
`id`. -/
def _revoke_user_access (db : RevokeDb) (event : SecurityEvent) :
    RevokeOutcome × RevokeDb :=
  match event.user_id with
  | none => (RevokeOutcome.no_user_associated, db)
  | some uid =>
    match db.users.find? (fun u => u.id = uid) with
    | none => (RevokeOutcome.user_not_found, db)
    | some _ =>
      let users := db.users.map (fun u => if u.id = uid then { u with is_active := false } else u)
      let sessions := db.sessions.map
        (fun s => if s.user_id = uid && s.is_active then { s with is_active := false } else s)
      (RevokeOutcome.revoked, { users := users, sessions := sessions })

/-- A ResponseAction record (`ResponseActionModel` in `src/models.py`),
restricted to the columns `execute_response_action` writes. -/
structure ResponseActionRecord where
  action_type : ResponseAction
  description : String
  is_automated : Bool
  status : ResponseStatus
  executed_at : Option ℕ
deriving DecidableEq, Repr

/-- The REVOKE_ACCESS branch of
`AutomatedResponseService.execute_response_action`
(`response_system.py`, lines 381-425): the record is created with status
`executing`, the handler runs, and the status becomes `completed` when the
handler returned `True` and `failed` otherwise.  Returns the handler result,
the final record, and the database state. -/
def execute_revoke_access (db : RevokeDb) (event : SecurityEvent) (now : ℕ) :
    Bool × ResponseActionRecord × RevokeDb :=
  let record : ResponseActionRecord :=
    { action_type := ResponseAction.revoke_access,
      description := "Revoke user access and terminate sessions",
      is_automated := true,
      status := ResponseStatus.executing,
      executed_at := none }
  let (outcome, db) := _revoke_user_access db event
  let success := outcome.success
  let record :=
    { record with
      status := if success then ResponseStatus.completed else ResponseStatus.failed,
      executed_at := some now }
  (success, record, db)

/-- A security event as seen by the correlation engine (`analysis_engine.py`):
the columns `_find_pattern_events` and `_create_correlation` read.
Timestamps are seconds as integers. -/
structure CorrEvent where
  event_id : String
  event_type : String
  device_id : Option ℕ
  confidence_score : ℚ
  created_at : ℤ
deriving DecidableEq, Repr

/-- One entry of `EventCorrelationEngine.correlation_rules`. -/
structure CorrelationRule where
  events : List String
  time_window : ℤ
  device_threshold : ℕ
  severity : String
deriving DecidableEq, Repr

/-- The window `[base.created_at, base.created_at + time_window]` of relevant
events anchored at `base` (`_find_pattern_events`, inner list comprehension). -/
def window_events (relevant : List CorrEvent) (time_window : ℤ) (base : CorrEvent) :
    List CorrEvent :=
  relevant.filter
    (fun e => base.created_at ≤ e.created_at && e.created_at ≤ base.created_at + time_window)

/-- The distinct non-null device ids of a list of events: the Python
`set(event.device_id for event in events if event.device_id)`. -/
def device_set (events : List CorrEvent) : Finset ℕ :=
  (events.filterMap CorrEvent.device_id).toFinset

/-- The body of the window check of `_find_pattern_events`: enough distinct
devices are affected and every required event type is present in the window. -/
def window_matches (relevant : List CorrEvent) (rule : CorrelationRule) (base : CorrEvent) :
    Bool :=
  let we := window_events relevant rule.time_window base
  rule.device_threshold ≤ (device_set we).card &&
    rule.events.all (fun t => t ∈ we.map CorrEvent.event_type)

/-- `EventCorrelationEngine._find_pattern_events`
(`analysis_engine.py`, lines 90-124): filter to the relevant event types,
extend the accumulator with every matching window, and deduplicate
(`list(set(matching_events))`). -/
def _find_pattern_events (events : List CorrEvent) (rule : CorrelationRule) :
    List CorrEvent :=
  let relevant := events.filter (fun e => e.event_type ∈ rule.events)
  if relevant.isEmpty then []
  else
    ((relevant.filter (window_matches relevant rule)).flatMap
      (window_events relevant rule.time_window)).dedup

/-- `EventCorrelationEngine._calculate_correlation_confidence`
(`analysis_engine.py`, lines 149-168).  `time_span.total_seconds() / 3600`
becomes an exact rational. -/
def _calculate_correlation_confidence (events : List CorrEvent) : ℚ :=
  if events.isEmpty then 0
  else
    let avg_confidence := (events.map CorrEvent.confidence_score).sum / events.length
    let event_boost := min ((events.length : ℚ) * (1/10)) (3/10)
    let time_penalty :=
      if events.length > 1 then
        let time_span := ((events.map CorrEvent.created_at).max?.getD 0
          - (events.map CorrEvent.created_at).min?.getD 0 : ℤ)
        min ((time_span : ℚ) / 3600) (2/10)
      else 0
    max (min (avg_confidence + event_boost - time_penalty) 1) 0

/-- A Correlation dict as built by `_create_correlation`, restricted to the
fields the invariant speaks about.  `affected_devices` is a set in the
source (`list(set(...))`), modelled as a `Finset`. -/
structure Correlation where
  pattern_name : String
  severity : String
  confidence_score : ℚ
  event_count : ℕ
  affected_devices : Finset ℕ
  event_ids : List String
deriving DecidableEq

/-- `EventCorrelationEngine._create_correlation`
(`analysis_engine.py`, lines 126-147). -/
def _create_correlation (rule_name : String) (rule : CorrelationRule)
    (events : List CorrEvent) : Correlation :=
  { pattern_name := rule_name,
    severity := rule.severity,
    confidence_score := _calculate_correlation_confidence events,
    event_count := events.length,
    affected_devices := device_set events,
    event_ids := events.map CorrEvent.event_id }

/-- An incoming request body for `POST /api/events`, as seen by pydantic
validation of `SecurityEventCreate`: each declared field either absent
(`none`) or present with a value of the declared type. -/
structure RawEventPayload where
  event_type : Option String
  device_id : Option ℤ
  user_id : Option ℤ
  threat_level : Option ThreatLevel
  confidence_score : Option ℚ
  description : Option String
  raw_data : Option RawData
deriving DecidableEq

/-- `SecurityEventCreate` pydantic model (`src/models.py`, lines 222-229):
the validated record.  The model declares types only; it carries no range
constraint on `confidence_score` (no `Field(ge=..., le=...)` and no
validator exists anywhere in the repository). -/
structure SecurityEventCreate where
  event_type : String
  device_id : Option ℤ
  user_id : Option ℤ
  threat_level : ThreatLevel
  confidence_score : ℚ
  description : String
  raw_data : Option RawData
deriving DecidableEq

/-- Pydantic validation of `SecurityEventCreate`: a required field that is
absent raises ValidationError; `device_id`, `user_id` and `raw_data` default
to `None`.  No other check is performed by the model. -/
def validate_security_event_create (p : RawEventPayload) :
    Except String SecurityEventCreate :=
  match p.event_type with
  | none => Except.error "event_type: field required"
  | some event_type =>
    match p.threat_level with
    | none => Except.error "threat_level: field required"
    | some threat_level =>
      match p.confidence_score with
      | none => Except.error "confidence_score: field required"
      | some confidence_score =>
        match p.description with
        | none => Except.error "description: field required"
        | some description =>
          Except.ok
            { event_type := event_type,
              device_id := p.device_id,
              user_id := p.user_id,
              threat_level := threat_level,
              confidence_score := confidence_score,
              description := description,
              raw_data := p.raw_data }

/-- Whether validation accepted the payload. -/
def validationOk (r : Except String SecurityEventCreate) : Bool :=
  match r with
  | Except.ok _ => true
  | Except.error _ => false

/-- `MLThreatDetector.extract_features`
(`analysis_engine.py`, lines 415-448): the feature vector
`[cpu, memory, disk, connection_count, process_count,
suspicious_process_count, unusual_port_count]`.  The `except` branch of the
source returns `np.zeros((1, 7))`; it fires exactly on the payloads marked
`parse_error`. -/
def extract_features (telemetry_data : TelemetryData) : List ℚ :=
  if telemetry_data.parse_error then List.replicate 7 0
  else
    [telemetry_data.cpu_usage,
     telemetry_data.memory_usage,
     telemetry_data.disk_usage,
     (telemetry_data.network_connections.length : ℚ),
     (telemetry_data.running_processes.length : ℚ),
     ((telemetry_data.security_events.filter
        (fun e => e.etype = some "suspicious_process")).length : ℚ),
     ((telemetry_data.security_events.filter
        (fun e => e.etype = some "unusual_listening_port")).length : ℚ)]

/-- The trained model inside `MLThreatDetector`: `predict` returns the label
of the single sample (`-1` means anomaly for IsolationForest) and
`decision_function` its raw score.  The detector is a pluggable capability,
so both are abstract functions of the feature vector. -/
structure MLModel where
  predict : List ℚ → ℤ
  decision_function : List ℚ → ℚ

/-- The mutable state of `MLThreatDetector`: `model` is `none` when
uninitialized, and `scaler` is `some` transformation exactly when the
`StandardScaler` has been fitted (`hasattr(self.scaler, "mean_")`). -/
structure MLDetectorState where
  model : Option MLModel
  scaler : Option (List ℚ → List ℚ)

/-- `MLThreatDetector.detect_anomaly`
(`analysis_engine.py`, lines 450-476), translated statement by statement.
`internal_error` models an exception raised inside the `try` body (for
example by the underlying library), which the source catches, returning the
safe default `(False, 0.0)`. -/
def detect_anomaly (st : MLDetectorState) (telemetry_data : TelemetryData)
    (internal_error : Bool) : Bool × ℚ :=
  if internal_error then (false, 0)
  else
    match st.model with
    | none => (false, 0)
    | some m =>
      let features := extract_features telemetry_data
      let features :=
        match st.scaler with
        | some transform => transform features
        | none => features
      let prediction := m.predict features
      let anomaly_score := m.decision_function features
      let confidence := min (max ((anomaly_score + 1/2) / 1) 0) 1
      let is_anomaly := prediction = -1
      (is_anomaly, confidence)

/-- A concrete event with no associated user, used to exercise the policy. -/
def c1_event : SecurityEvent :=
  { event_id := "evt-1", event_type := "malware_detection", device_id := some 1,
    user_id := none, threat_level := ThreatLevel.critical, confidence_score := 95/100,
    description := "malware detected", raw_data := none, is_resolved := false }

/-- A concrete threat-intelligence match. -/
def c1_match : IOCData :=
  { threat_type := "malware_c2", confidence := 9/10, description := "known c2 server" }

/-- C1 counterexample: with `risk_score = 0.95` (so ISOLATE_DEVICE is chosen)
and a non-empty threat-match list, the policy nevertheless adds QUARANTINE,
because the source guards the addition with "QUARANTINE not already in the
list", not with "ISOLATE_DEVICE not already chosen". -/
theorem C1_counterexample :
    ResponseAction.isolate_device ∈ evaluate_response_actions (95/100) [c1_match] false c1_event ∧
    ResponseAction.quarantine ∈ evaluate_response_actions (95/100) [c1_match] false c1_event := by
  have h : evaluate_response_actions (95/100) [c1_match] false c1_event =
      [ResponseAction.isolate_device, ResponseAction.alert_admin, ResponseAction.quarantine] := by
    norm_num [evaluate_response_actions, c1_event, c1_match]
    simp
  rw [h]
  exact ⟨by simp, by simp⟩

/-- C1 amended: membership characterization of the decided action set.
ISOLATE_DEVICE is chosen iff `risk_score > 0.9`; QUARANTINE is chosen iff
`0.7 < risk_score ≤ 0.9` or the threat-match list is non-empty (so it is
added alongside ISOLATE_DEVICE, being suppressed only when the
`0.7 < risk_score ≤ 0.9` branch already put it in the list); REVOKE_ACCESS
is chosen iff there are threat matches and the event has a user; ALERT_ADMIN
is chosen iff `risk_score > 0.7`, or the anomaly flag is set, or the threat
level is high or critical.  The internal-error fallback of the source is the
constant `evaluate_response_actions_fallback = [ALERT_ADMIN]`. -/
theorem C1_amended_policy (risk_score : ℚ) (tms : List IOCData) (ml_anomaly : Bool)
    (event : SecurityEvent) :
    (ResponseAction.isolate_device ∈ evaluate_response_actions risk_score tms ml_anomaly event
      ↔ risk_score > 9/10) ∧
    (ResponseAction.quarantine ∈ evaluate_response_actions risk_score tms ml_anomaly event
      ↔ (risk_score > 7/10 ∧ ¬ risk_score > 9/10) ∨ tms ≠ []) ∧
    (ResponseAction.revoke_access ∈ evaluate_response_actions risk_score tms ml_anomaly event
      ↔ tms ≠ [] ∧ event.user_id.isSome = true) ∧
    (ResponseAction.alert_admin ∈ evaluate_response_actions risk_score tms ml_anomaly event
      ↔ risk_score > 7/10 ∨ ml_anomaly = true ∨
          event.threat_level = ThreatLevel.high ∨ event.threat_level = ThreatLevel.critical) := by
  by_cases hA : risk_score > 9/10 <;> by_cases hB : risk_score > 7/10 <;>
    first
      | (exfalso; exact hB (lt_trans (by norm_num) hA))
      | (by_cases hC : tms = [] <;> by_cases hD : event.user_id.isSome = true <;>
          cases ml_anomaly <;>
          by_cases hF : event.threat_level = ThreatLevel.high ∨
            event.threat_level = ThreatLevel.critical <;>
          simp [evaluate_response_actions, hA, hB, hC, hD, hF, List.isEmpty_iff])

/-- Every severity weight the dict lookup can produce is nonnegative. -/
theorem severity_weight_nonneg (s : String) : 0 ≤ severity_weight s := by
  unfold severity_weight
  split_ifs <;> norm_num

/-- A list mean of nonnegative rationals is nonnegative. -/
theorem list_mean_nonneg (l : List ℚ) (h : ∀ x ∈ l, 0 ≤ x) :
    0 ≤ l.sum / (l.length : ℚ) := by
  apply div_nonneg (List.sum_nonneg h)
  positivity

/-- A mean of a non-empty list of rationals that are at most one is at most
one. -/
theorem list_mean_le_one (l : List ℚ) (hne : l ≠ []) (h : ∀ x ∈ l, x ≤ 1) :
    l.sum / (l.length : ℚ) ≤ 1 := by
  have hlen : 0 < (l.length : ℚ) := by
    have : 0 < l.length := List.length_pos.mpr hne
    exact_mod_cast this
  rw [div_le_one hlen]
  have := List.sum_le_card_nsmul l 1 h
  simpa using this

/-- A telemetry payload whose compliance dict holds the value `2`. -/
def c2_telemetry : TelemetryData :=
  { cpu_usage := 0, memory_usage := 0, disk_usage := 0, network_connections := [],
    running_processes := [], security_events := [], compliance_status := [2],
    parse_error := false }

/-- C2 counterexample: the final line of `_calculate_risk_score` is
`min(risk_score, 1.0)` with no lower clamp, so a compliance value above one
(the payload is an arbitrary JSON dict) drives the score below zero. -/
theorem C2_counterexample : _calculate_risk_score c2_telemetry false 0 [] < 0 := by
  norm_num [_calculate_risk_score, c2_telemetry]

/-- C2 amended: the risk score never exceeds one for any input, and it is
nonnegative provided the anomaly confidence is at most one, every threat
match confidence is nonnegative, and every compliance value is at most one
(all of which hold for the values the pipeline itself produces). -/
theorem C2_risk_score_bounds (t : TelemetryData) (is_anomaly : Bool) (ml_confidence : ℚ)
    (tms : List IOCData) :
    _calculate_risk_score t is_anomaly ml_confidence tms ≤ 1 ∧
    (ml_confidence ≤ 1 → (∀ m ∈ tms, 0 ≤ m.confidence) →
      (∀ q ∈ t.compliance_status, q ≤ 1) →
      0 ≤ _calculate_risk_score t is_anomaly ml_confidence tms) := by
  constructor
  · exact min_le_right _ _
  · intro hconf hm hcs
    have hanom : is_anomaly = true → 0 ≤ 3/10 * (1 - ml_confidence) := by
      intro _
      have : 0 ≤ 1 - ml_confidence := by linarith
      linarith
    have hsev : 0 ≤ (t.security_events.map
        (fun e => severity_weight (e.severity.getD "low"))).sum /
        ((t.security_events.length : ℚ)) := by
      have := list_mean_nonneg
        (t.security_events.map (fun e => severity_weight (e.severity.getD "low")))
        (by
          intro x hx
          obtain ⟨e, _, rfl⟩ := List.mem_map.mp hx
          exact severity_weight_nonneg _)
      simpa using this
    have hminsev : 0 ≤ min ((t.security_events.map
        (fun e => severity_weight (e.severity.getD "low"))).sum /
        ((t.security_events.length : ℚ))) 1 :=
      le_min hsev (by norm_num)
    have hthreat : 0 ≤ (tms.map IOCData.confidence).sum / ((tms.length : ℚ)) := by
      have := list_mean_nonneg (tms.map IOCData.confidence)
        (by
          intro x hx
          obtain ⟨m, hmem, rfl⟩ := List.mem_map.mp hx
          exact hm m hmem)
      simpa using this
    have hcompl : ¬ t.compliance_status.isEmpty = true →
        t.compliance_status.sum / ((t.compliance_status.length : ℚ)) ≤ 1 := by
      intro hne
      apply list_mean_le_one
      · simpa [List.isEmpty_iff] using hne
      · exact hcs
    unfold _calculate_risk_score
    dsimp only
    split_ifs with h1 h2 h3 h4 <;>
      refine le_min ?_ (by norm_num) <;>
      first
        | linarith [hminsev, hthreat, hanom (by assumption), hcompl (by assumption)]
        | linarith [hminsev, hthreat, hcompl (by assumption)]
        | linarith [hminsev, hthreat, hanom (by assumption)]
        | linarith [hminsev, hthreat]

/-- A well-formed telemetry payload as produced by the endpoint agent. -/
def c2w_telemetry : TelemetryData :=
  { cpu_usage := 10, memory_usage := 20, disk_usage := 30, network_connections := [],
    running_processes := [],
    security_events := [{ etype := some "suspicious_process", severity := some "high" }],
    compliance_status := [1, 0], parse_error := false }

/-- A threat match with an in-range confidence. -/
def c2w_match : IOCData :=
  { threat_type := "phishing", confidence := 85/100, description := "phishing domain" }

/-- Witness for `C2_risk_score_bounds` at a concrete pipeline-shaped input. -/
theorem C2_risk_score_bounds_witness :
    _calculate_risk_score c2w_telemetry true (1/2) [c2w_match] ≤ 1 ∧
    0 ≤ _calculate_risk_score c2w_telemetry true (1/2) [c2w_match] :=
  ⟨(C2_risk_score_bounds c2w_telemetry true (1/2) [c2w_match]).1,
   (C2_risk_score_bounds c2w_telemetry true (1/2) [c2w_match]).2 (by norm_num)
     (by
       intro m hmem
       simp only [List.mem_singleton] at hmem
       subst hmem
       norm_num [c2w_match])
     (by
       intro q hq
       simp only [c2w_telemetry, List.mem_cons, List.mem_singleton] at hq
       rcases hq with h | h | h
       · rw [h]
       · rw [h]; norm_num
       · cases h)⟩

/-- A threat-intelligence lookup that knows the sample C2 server address
seeded by `update_threat_intelligence`. -/
def c3_check_ioc : String → String → Option IOCData :=
  fun ioc_type ioc_value =>
    if ioc_type = "ip" && ioc_value = "192.168.100.1" then
      some { threat_type := "malware_c2", confidence := 9/10,
             description := "Known malware command and control server" }
    else none

/-- An event whose payload carries a known-malicious remote address. -/
def c3_event : SecurityEvent :=
  { event_id := "evt-3", event_type := "suspicious_network", device_id := some 1,
    user_id := none, threat_level := ThreatLevel.medium, confidence_score := 1/2,
    description := "suspicious connection",
    raw_data := some { remote_address := some "192.168.100.1", name := none,
                       threat_intel := none, other := [] },
    is_resolved := false }

/-- C3 counterexample: enriching `c3_event` bumps its confidence from 0.5 to
0.7, and re-running enrichment on the already-enriched event matches the
same indicator again (the payload still holds `remote_address`) and bumps
the confidence a second time, to 0.9 — the +0.2 adjustment is not applied
at most once per event. -/
theorem C3_counterexample :
    (enrich_security_event c3_check_ioc c3_event).1 = true ∧
    (enrich_security_event c3_check_ioc c3_event).2.confidence_score = 7/10 ∧
    (enrich_security_event c3_check_ioc
      ((enrich_security_event c3_check_ioc c3_event).2)).1 = true ∧
    (enrich_security_event c3_check_ioc
      ((enrich_security_event c3_check_ioc c3_event).2)).2.confidence_score = 9/10 := by
  refine ⟨rfl, ?_, rfl, ?_⟩ <;>
    simp [enrich_security_event, c3_event, c3_check_ioc, ip_entries, process_entries,
      RawData.isFalsy, min_def] <;>
    norm_num

/-- C3 amended: whenever enrichment reports a match, the confidence becomes
`min(original + 0.2, 1.0)` — but the adjustment is applied once per run,
not once per event: re-running enrichment on the already-enriched event
matches again and applies `min(+0.2, 1.0)` a second time. -/
theorem C3_amended_enrichment (check_ioc : String → String → Option IOCData)
    (event : SecurityEvent)
    (h : (enrich_security_event check_ioc event).1 = true) :
    (enrich_security_event check_ioc event).2.confidence_score
      = min (event.confidence_score + 2/10) 1 ∧
    (enrich_security_event check_ioc ((enrich_security_event check_ioc event).2)).1 = true ∧
    (enrich_security_event check_ioc
      ((enrich_security_event check_ioc event).2)).2.confidence_score
      = min (min (event.confidence_score + 2/10) 1 + 2/10) 1 := by
  cases hrd : event.raw_data with
  | none => rw [enrich_security_event, hrd] at h; cases h
  | some rd =>
    by_cases hf : rd.isFalsy = true
    · rw [enrich_security_event, hrd] at h
      simp only [hf, if_true] at h
      cases h
    · by_cases he : (ip_entries check_ioc rd ++ process_entries rd).isEmpty = true
      · rw [enrich_security_event, hrd] at h
        simp only [hf, if_false, he, if_true] at h
        · cases h
      · have h1 : enrich_security_event check_ioc event =
            (true, { event with
              raw_data := some { rd with
                threat_intel := some (ip_entries check_ioc rd ++ process_entries rd) },
              confidence_score := min (event.confidence_score + 2/10) 1 }) := by
          rw [enrich_security_event, hrd]
          simp [hf, he]
        have hf2 : ({ rd with
            threat_intel := some (ip_entries check_ioc rd ++ process_entries rd)
            : RawData }).isFalsy = false := by
          simp [RawData.isFalsy]
        have hip : ip_entries check_ioc { rd with
            threat_intel := some (ip_entries check_ioc rd ++ process_entries rd) }
            = ip_entries check_ioc rd := rfl
        have hpr : process_entries { rd with
            threat_intel := some (ip_entries check_ioc rd ++ process_entries rd) }
            = process_entries rd := rfl
        have h2 : enrich_security_event check_ioc
            ((enrich_security_event check_ioc event).2) =
            (true, { event with
              raw_data := some { rd with
                threat_intel := some (ip_entries check_ioc rd ++ process_entries rd) },
              confidence_score := min (min (event.confidence_score + 2/10) 1 + 2/10) 1 }) := by
          rw [h1]
          show enrich_security_event check_ioc
            { event with
              raw_data := some { rd with
                threat_intel := some (ip_entries check_ioc rd ++ process_entries rd) },
              confidence_score := min (event.confidence_score + 2/10) 1 } = _
          rw [enrich_security_event]
          simp [hf2, hip, hpr, he]
        rw [h2, h1]
        exact ⟨rfl, rfl, rfl⟩

/-- Witness for `C3_amended_enrichment` at the concrete matching event. -/
theorem C3_amended_enrichment_witness :
    (enrich_security_event c3_check_ioc c3_event).2.confidence_score
      = min (c3_event.confidence_score + 2/10) 1 ∧
    (enrich_security_event c3_check_ioc
      ((enrich_security_event c3_check_ioc c3_event).2)).1 = true ∧
    (enrich_security_event c3_check_ioc
      ((enrich_security_event c3_check_ioc c3_event).2)).2.confidence_score
      = min (min (c3_event.confidence_score + 2/10) 1 + 2/10) 1 :=
  C3_amended_enrichment c3_check_ioc c3_event rfl

/-- C9 confirmed: when enrichment finds no threat-intelligence match it
returns `False` and leaves the event entirely unchanged, and an absent
`raw_data` short-circuits to `(False, unchanged)`. -/
theorem C9_no_match_frame (check_ioc : String → String → Option IOCData)
    (event : SecurityEvent) :
    ((enrich_security_event check_ioc event).1 = false →
      (enrich_security_event check_ioc event).2 = event) ∧
    (event.raw_data = none → enrich_security_event check_ioc event = (false, event)) := by
  constructor
  · intro h
    cases hrd : event.raw_data with
    | none =>
      rw [enrich_security_event, hrd]
    | some rd =>
      rw [enrich_security_event, hrd] at h ⊢
      by_cases hf : rd.isFalsy = true
      · simp [hf]
      · by_cases he : (ip_entries check_ioc rd ++ process_entries rd).isEmpty = true
        · simp [hf, he]
        · simp [hf, he] at h
  · intro h
    rw [enrich_security_event, h]

/-- A lookup with no known indicators. -/
def c9_check_ioc : String → String → Option IOCData := fun _ _ => none

/-- A benign event: a payload with a remote address unknown to threat
intelligence and a process name that matches no known-bad name. -/
def c9_event : SecurityEvent :=
  { event_id := "evt-9", event_type := "suspicious_network", device_id := some 2,
    user_id := some 7, threat_level := ThreatLevel.low, confidence_score := 3/10,
    description := "benign connection",
    raw_data := some { remote_address := some "10.1.1.1", name := some "notepad.exe",
                       threat_intel := none, other := [("port", "443")] },
    is_resolved := false }

/-- Witness for `C9_no_match_frame` at concrete non-matching inputs. -/
theorem C9_no_match_frame_witness :
    (enrich_security_event c9_check_ioc c9_event).2 = c9_event ∧
    enrich_security_event c9_check_ioc { c9_event with raw_data := none } =
      (false, { c9_event with raw_data := none }) :=
  ⟨(C9_no_match_frame c9_check_ioc c9_event).1 (by decide),
   (C9_no_match_frame c9_check_ioc { c9_event with raw_data := none }).2 rfl⟩

/-- A freshly created open incident as built by `create_incident`. -/
def c4_incident : Incident :=
  { incident_id := "INC-20251012-1", status := "open", resolution := none,
    closed_at := none, updated_at := 0, escalation_level := 0,
    assigned_to := "security_team", priority := 3,
    timeline := [{ timestamp := 0, action := "incident_created",
                   description := "Incident created from event evt-1", user := "system" }] }

/-- C4 counterexample: closing an already-closed incident returns success
and keeps the terminal status, but `close_incident` unconditionally passes a
`timeline_entry` to `update_incident`, so the second close appends a second
"Incident closed" timeline entry — the resulting states differ and the
timeline grows by one per call. -/
theorem C4_counterexample :
    (close_incident 2 (close_incident 1 c4_incident "contained" "alice").2
        "contained" "alice").1 = true ∧
    (close_incident 2 (close_incident 1 c4_incident "contained" "alice").2
        "contained" "alice").2.status = "closed" ∧
    (close_incident 2 (close_incident 1 c4_incident "contained" "alice").2
        "contained" "alice").2 ≠ (close_incident 1 c4_incident "contained" "alice").2 ∧
    (close_incident 2 (close_incident 1 c4_incident "contained" "alice").2
        "contained" "alice").2.timeline.length =
      (close_incident 1 c4_incident "contained" "alice").2.timeline.length + 1 := by
  refine ⟨rfl, rfl, ?_, rfl⟩
  intro h
  have := congrArg (fun i => i.timeline.length) h
  simp [close_incident, update_incident, c4_incident] at this

/-- C4 amended: both the first and the second close return success and leave
the incident in status "closed" with the same resolution (a re-close is not
an error), but close is not a no-op: every call appends one more timeline
entry (and refreshes `closed_at`/`updated_at`). -/
theorem C4_amended_close (incident : Incident) (t1 t2 : ℕ) (resolution user : String) :
    (close_incident t1 incident resolution user).1 = true ∧
    (close_incident t1 incident resolution user).2.status = "closed" ∧
    (close_incident t2 (close_incident t1 incident resolution user).2
        resolution user).1 = true ∧
    (close_incident t2 (close_incident t1 incident resolution user).2
        resolution user).2.status = "closed" ∧
    (close_incident t2 (close_incident t1 incident resolution user).2
        resolution user).2.resolution = some resolution ∧
    (close_incident t2 (close_incident t1 incident resolution user).2
        resolution user).2.timeline.length =
      (close_incident t1 incident resolution user).2.timeline.length + 1 := by
  refine ⟨rfl, rfl, rfl, rfl, rfl, ?_⟩
  simp [close_incident, update_incident]

/-- Each escalation raises the escalation level by exactly one. -/
theorem escalate_step_level (now : ℕ) (incident : Incident) (reason : String) :
    ((escalate_incident now incident reason).2).escalation_level =
      incident.escalation_level + 1 := by
  simp [escalate_incident, update_incident]

/-- Over a whole sequence of escalations the level is the starting level
plus the number of calls. -/
theorem escalate_sequence_level (incident : Incident) (calls : List (ℕ × String)) :
    (escalate_sequence incident calls).escalation_level =
      incident.escalation_level + calls.length := by
  induction calls generalizing incident with
  | nil => rfl
  | cons c cs ih =>
    have hstep : escalate_sequence incident (c :: cs) =
        escalate_sequence ((escalate_incident c.1 incident c.2).2) cs := rfl
    rw [hstep, ih, escalate_step_level, List.length_cons]
    omega

/-- C6 confirmed: a successful escalation returns success, increments
`escalation_level` by exactly one, reassigns per the fixed table
(level 1 to security_admin, level 2 to ciso, level 3 and above to
emergency_team — the dict lookup defaults to emergency_team), raises
priority by one capped at 5, and over any sequence of calls the level is
the starting level plus the number of calls, hence non-decreasing. -/
theorem C6_escalation_monotone (incident : Incident) (now : ℕ) (reason : String)
    (calls : List (ℕ × String)) :
    (escalate_incident now incident reason).1 = true ∧
    ((escalate_incident now incident reason).2).escalation_level =
      incident.escalation_level + 1 ∧
    ((escalate_incident now incident reason).2).assigned_to =
      (if incident.escalation_level + 1 = 1 then "security_admin"
       else if incident.escalation_level + 1 = 2 then "ciso"
       else "emergency_team") ∧
    ((escalate_incident now incident reason).2).priority = min (incident.priority + 1) 5 ∧
    (escalate_sequence incident calls).escalation_level =
      incident.escalation_level + calls.length ∧
    incident.escalation_level ≤ (escalate_sequence incident calls).escalation_level := by
  refine ⟨rfl, escalate_step_level now incident reason, ?_, ?_, ?_, ?_⟩
  · simp only [escalate_incident, update_incident]
    split_ifs <;> rfl
  · simp [escalate_incident, update_incident]
  · exact escalate_sequence_level incident calls
  · rw [escalate_sequence_level]
    omega

/-- C7 confirmed: executing REVOKE_ACCESS for an event with no associated
user does not touch the database, takes the distinct
"no user associated" exit path (a plain `return False`, not an exception),
and the recorded ResponseAction ends in status `failed`, not `completed`. -/
theorem C7_revoke_without_user (db : RevokeDb) (event : SecurityEvent) (now : ℕ)
    (h : event.user_id = none) :
    (execute_revoke_access db event now).1 = false ∧
    (_revoke_user_access db event).1 = RevokeOutcome.no_user_associated ∧
    (execute_revoke_access db event now).2.1.status = ResponseStatus.failed ∧
    (execute_revoke_access db event now).2.2 = db := by
  refine ⟨?_, ?_, ?_, ?_⟩ <;>
    simp [execute_revoke_access, _revoke_user_access, h, RevokeOutcome.success]

/-- A database slice with one active user and one active session. -/
def c7_db : RevokeDb :=
  { users := [{ id := 7, username := "jdoe", is_active := true }],
    sessions := [{ session_id := "s-1", user_id := 7, is_active := true }] }

/-- Witness for `C7_revoke_without_user`: the concrete user-less event. -/
theorem C7_revoke_without_user_witness :
    (execute_revoke_access c7_db c1_event 5).1 = false ∧
    (_revoke_user_access c7_db c1_event).1 = RevokeOutcome.no_user_associated ∧
    (execute_revoke_access c7_db c1_event 5).2.1.status = ResponseStatus.failed ∧
    (execute_revoke_access c7_db c1_event 5).2.2 = c7_db :=
  C7_revoke_without_user c7_db c1_event 5 rfl

/-- A payload that is complete but carries an out-of-range confidence. -/
def c8_payload : RawEventPayload :=
  { event_type := some "malware_detection", device_id := none, user_id := none,
    threat_level := some ThreatLevel.high, confidence_score := some (5/2),
    description := some "test event", raw_data := none }

/-- C8 counterexample: the pydantic model accepts a confidence score of 2.5
(far outside `[0,1]`) because `SecurityEventCreate` declares
`confidence_score: float` with no range constraint, so the event is
validated and processed rather than rejected. -/
theorem C8_counterexample :
    validationOk (validate_security_event_create c8_payload) = true ∧
    c8_payload.confidence_score = some (5/2) ∧
    ¬ ((5/2 : ℚ) ≤ 1) := by
  refine ⟨rfl, rfl, by norm_num⟩

/-- C8 amended: validation rejects a payload missing `event_type` (or any
other required field) with a ValidationError, but it performs no range check
at all: acceptance depends only on the presence of the required fields,
never on the value of `confidence_score`. -/
theorem C8_amended_validation (p : RawEventPayload) :
    (p.event_type = none →
      validationOk (validate_security_event_create p) = false) ∧
    (validationOk (validate_security_event_create p) = true ↔
      p.event_type.isSome = true ∧ p.threat_level.isSome = true ∧
      p.confidence_score.isSome = true ∧ p.description.isSome = true) := by
  obtain ⟨et, di, ui, tl, cs, d, rd⟩ := p
  cases et <;> cases tl <;> cases cs <;> cases d <;>
    simp [validate_security_event_create, validationOk]

/-- Witness for `C8_amended_validation`: a payload with no `event_type` is
rejected. -/
theorem C8_amended_validation_witness :
    validationOk (validate_security_event_create
      { c8_payload with event_type := none }) = false :=
  (C8_amended_validation { c8_payload with event_type := none }).1 rfl

/-- A model that flags the all-zero feature vector as anomalous with raw
score 0.2. -/
def c10_model : MLModel :=
  { predict := fun _ => -1, decision_function := fun _ => 1/5 }

/-- A detector state with that model loaded and no fitted scaler. -/
def c10_state : MLDetectorState := { model := some c10_model, scaler := none }

/-- A telemetry payload on which feature extraction raises internally. -/
def c10_telemetry : TelemetryData :=
  { cpu_usage := 0, memory_usage := 0, disk_usage := 0, network_connections := [],
    running_processes := [], security_events := [], compliance_status := [],
    parse_error := true }

/-- C10 counterexample: on unparseable features `extract_features` returns
the zero vector (its own `except` branch) and `detect_anomaly` then scores
that vector through the model like any other input — here producing
`(True, 0.7)`, not the safe default `(False, 0.0)`. -/
theorem C10_counterexample :
    c10_telemetry.parse_error = true ∧
    detect_anomaly c10_state c10_telemetry false = (true, 7/10) ∧
    (true, (7/10 : ℚ)) ≠ ((false, 0) : Bool × ℚ) := by
  refine ⟨rfl, ?_, by simp⟩
  show (true, min (max ((1/5 + 1/2) / 1) 0) 1) = (true, 7/10)
  norm_num [min_def, max_def]

/-- C10 amended: `detect_anomaly` is total, its confidence always lies in
`[0,1]`, and it returns the safe default `(False, 0.0)` on an internal error
of the detection step or an uninitialized model; unparseable features,
however, only zero the feature vector, which is then scored normally. -/
theorem C10_detect_anomaly_safety (st : MLDetectorState) (t : TelemetryData)
    (internal_error : Bool) :
    0 ≤ (detect_anomaly st t internal_error).2 ∧
    (detect_anomaly st t internal_error).2 ≤ 1 ∧
    (internal_error = true → detect_anomaly st t internal_error = (false, 0)) ∧
    (st.model = none → detect_anomaly st t internal_error = (false, 0)) ∧
    (t.parse_error = true → extract_features t = List.replicate 7 0) := by
  refine ⟨?_, ?_, ?_, ?_, ?_⟩
  · cases internal_error with
    | true => norm_num [detect_anomaly]
    | false =>
      cases hm : st.model with
      | none => norm_num [detect_anomaly, hm]
      | some m =>
        rw [detect_anomaly]
        simp only [hm, Bool.false_eq_true, if_false]
        have : (0 : ℚ) ≤ max ((m.decision_function
            (match st.scaler with
             | some transform => transform (extract_features t)
             | none => extract_features t) + 1/2) / 1) 0 := le_max_right _ _
        exact le_min this (by norm_num)
  · cases internal_error with
    | true => norm_num [detect_anomaly]
    | false =>
      cases hm : st.model with
      | none => norm_num [detect_anomaly, hm]
      | some m =>
        rw [detect_anomaly]
        simp only [hm, Bool.false_eq_true, if_false]
        exact min_le_right _ _
  · intro he
    subst he
    rfl
  · intro hm
    cases internal_error with
    | true => rfl
    | false =>
      rw [detect_anomaly]
      simp [hm]
  · intro hp
    rw [extract_features, hp]
    rfl

/-- Witness for `C10_detect_anomaly_safety`: the safe default on internal
error and the zero feature vector on a parse error, at concrete inputs. -/
theorem C10_detect_anomaly_safety_witness :
    detect_anomaly c10_state c10_telemetry true = (false, 0) ∧
    extract_features c10_telemetry = List.replicate 7 0 :=
  ⟨(C10_detect_anomaly_safety c10_state c10_telemetry true).2.2.1 rfl,
   (C10_detect_anomaly_safety c10_state c10_telemetry true).2.2.2.2 rfl⟩

/-- Events of a window are taken from the relevant list. -/
theorem window_events_subset (relevant : List CorrEvent) (tw : ℤ) (base : CorrEvent) :
    ∀ e ∈ window_events relevant tw base, e ∈ relevant := by
  intro e he
  exact (List.mem_filter.mp he).1

/-- The distinct-device set is monotone under list inclusion. -/
theorem device_set_mono {l1 l2 : List CorrEvent} (h : ∀ e ∈ l1, e ∈ l2) :
    device_set l1 ⊆ device_set l2 := by
  intro d hd
  simp only [device_set, List.mem_toFinset, List.mem_filterMap] at hd ⊢
  obtain ⟨e, he, hde⟩ := hd
  exact ⟨e, h e he, hde⟩

/-- C5 confirmed: whenever the engine finds pattern events for a rule with a
positive device threshold (all four configured rules have threshold at least
one), the resulting Correlation has a non-empty `affected_devices` that is a
subset of the devices of exactly those source events whose ids appear in its
`event_ids`, and the number of distinct affected devices is at least the
rule's `device_threshold`. -/
theorem C5_correlation_invariant (events : List CorrEvent) (rule : CorrelationRule)
    (rule_name : String)
    (hthr : 1 ≤ rule.device_threshold)
    (hne : _find_pattern_events events rule ≠ []) :
    (_create_correlation rule_name rule (_find_pattern_events events rule)).affected_devices
      ≠ ∅ ∧
    (_create_correlation rule_name rule (_find_pattern_events events rule)).affected_devices
      ⊆ device_set (events.filter (fun e => e.event_id ∈
          (_create_correlation rule_name rule
            (_find_pattern_events events rule)).event_ids)) ∧
    rule.device_threshold ≤
      (_create_correlation rule_name rule
        (_find_pattern_events events rule)).affected_devices.card := by
  have hunfold : _find_pattern_events events rule =
      (if (events.filter (fun e => e.event_type ∈ rule.events)).isEmpty = true then []
       else (((events.filter (fun e => e.event_type ∈ rule.events)).filter
          (window_matches (events.filter (fun e => e.event_type ∈ rule.events)) rule)).flatMap
          (window_events (events.filter (fun e => e.event_type ∈ rule.events))
            rule.time_window)).dedup) := rfl
  set relevant := events.filter (fun e => e.event_type ∈ rule.events) with hrel
  have hre : ¬ relevant.isEmpty = true := by
    intro h0
    apply hne
    rw [hunfold, if_pos h0]
  have hpes : _find_pattern_events events rule =
      ((relevant.filter (window_matches relevant rule)).flatMap
        (window_events relevant rule.time_window)).dedup := by
    rw [hunfold, if_neg hre]
  have hfil : relevant.filter (window_matches relevant rule) ≠ [] := by
    intro h0
    apply hne
    rw [hpes, h0]
    rfl
  obtain ⟨base, hbase⟩ := List.exists_mem_of_ne_nil _ hfil
  have hmatch : window_matches relevant rule base = true := (List.mem_filter.mp hbase).2
  have hwin_sub : ∀ e ∈ window_events relevant rule.time_window base,
      e ∈ _find_pattern_events events rule := by
    intro e he
    rw [hpes, List.mem_dedup]
    exact List.mem_flatMap.mpr ⟨base, hbase, he⟩
  have hcard_win : rule.device_threshold ≤
      (device_set (window_events relevant rule.time_window base)).card := by
    have h := hmatch
    simp only [window_matches, Bool.and_eq_true, decide_eq_true_eq] at h
    exact h.1
  have hcard : rule.device_threshold ≤
      (device_set (_find_pattern_events events rule)).card :=
    le_trans hcard_win (Finset.card_le_card (device_set_mono hwin_sub))
  refine ⟨?_, ?_, ?_⟩
  · have hpos : 0 < (device_set (_find_pattern_events events rule)).card :=
      lt_of_lt_of_le hthr hcard
    exact Finset.nonempty_iff_ne_empty.mp (Finset.card_pos.mp hpos)
  · intro d hd
    have hd' : d ∈ device_set (_find_pattern_events events rule) := hd
    simp only [device_set, List.mem_toFinset, List.mem_filterMap] at hd' ⊢
    obtain ⟨e, he, hde⟩ := hd'
    refine ⟨e, ?_, hde⟩
    apply List.mem_filter.mpr
    refine ⟨?_, ?_⟩
    · have herel : e ∈ relevant := by
        rw [hpes, List.mem_dedup] at he
        obtain ⟨b2, hb2, he2⟩ := List.mem_flatMap.mp he
        exact (List.mem_filter.mp he2).1
      rw [hrel] at herel
      exact (List.mem_filter.mp herel).1
    · simp only [_create_correlation, decide_eq_true_eq]
      exact List.mem_map_of_mem _ he
  · exact hcard

/-- The `reconnaissance` rule from the engine's rule table. -/
def c5_rule : CorrelationRule :=
  { events := ["suspicious_network", "unusual_listening_port"],
    time_window := 300, device_threshold := 1, severity := "medium" }

/-- Two unresolved events of the required types on two devices within the
five-minute window. -/
def c5_events : List CorrEvent :=
  [{ event_id := "evt-a", event_type := "suspicious_network", device_id := some 1,
     confidence_score := 6/10, created_at := 0 },
   { event_id := "evt-b", event_type := "unusual_listening_port", device_id := some 2,
     confidence_score := 7/10, created_at := 100 }]

/-- Witness for `C5_correlation_invariant` at the concrete firing pattern. -/
theorem C5_correlation_invariant_witness :
    (_create_correlation "reconnaissance" c5_rule
      (_find_pattern_events c5_events c5_rule)).affected_devices ≠ ∅ ∧
    (_create_correlation "reconnaissance" c5_rule
      (_find_pattern_events c5_events c5_rule)).affected_devices
      ⊆ device_set (c5_events.filter (fun e => e.event_id ∈
          (_create_correlation "reconnaissance" c5_rule
            (_find_pattern_events c5_events c5_rule)).event_ids)) ∧
    c5_rule.device_threshold ≤
      (_create_correlation "reconnaissance" c5_rule
        (_find_pattern_events c5_events c5_rule)).affected_devices.card :=
  C5_correlation_invariant c5_events c5_rule "reconnaissance" (by decide) (by decide)
